import Mathlib

/-!
Verification of the medispa valuation engine against its specification.

The development shallowly embeds the valuation code in Lean 4:

* `SummitPE` — the capacity-based DCF model of `summit_pe.txt`
  (`ValuationModel.run_forecast`, `wacc`, the `mc` Monte-Carlo command).
* `EPV` — the Greenwald earnings-power model of the Streamlit app
  (`compute_epv`, `tornado_data` and friends).
* `MarketData` — the TypeScript/JS market-multiple helpers
  (`getRealTimeWACC`, `getRealTimeMarketMultiple`,
  `calculateEnhancedMultiple`, `getMarketCalibratedMultiple`).

Machine floats are modelled by exact rationals (`ℚ`); `x / 0 = 0` in Lean
where Python would raise `ZeroDivisionError`, and NaN propagation from
empty pandas series is modelled by `0` defaults — every theorem below is
stated away from those corner cases or notes them explicitly.
-/

namespace MarketData

/-- The slice of the `RealTimeMarketData` snapshot actually read by the
calibrated WACC / multiple functions in `realtime_market_data.ts`
(`riskFreeRate.value`, `marketRiskPremium.value`,
`industryMultiples.medispa.ebitdaMultiple`,
`economicIndicators.unemployment` / `.consumerConfidence`,
`transactionActivity.medispaDeals.count` / `.medianMultiple`).
When the caller supplies no snapshot the TypeScript code substitutes the
singleton's current data; we model the function on the resolved snapshot,
so the no-snapshot path is the same function at that snapshot. -/
structure Snapshot where
  riskFreeRate : ℚ
  marketRiskPremium : ℚ
  medispaEbitdaMultiple : ℚ
  unemployment : ℚ
  consumerConfidence : ℚ
  dealCount : ℚ
  medianMultiple : ℚ

/-- The `size` argument of `getRealTimeWACC`. -/
inductive SizeClass where
  | small
  | medium
  | large
deriving DecidableEq

/-- `getRealTimeWACC` from `realtime_market_data.ts`:
base WACC from the snapshot plus a size premium and an economic-condition
adjustment, clamped by `Math.max(0.08, Math.min(0.18, _))`. -/
def getRealTimeWACC (size : SizeClass) (data : Snapshot) : ℚ :=
  let baseWACC := data.riskFreeRate + data.marketRiskPremium
  let sizePremium : ℚ :=
    match size with
    | .small => 25/1000 + (if data.unemployment > 5/100 then 5/1000 else 0)
    | .medium => 15/1000
    | .large => 5/1000
  let economicAdjustment : ℚ :=
    if data.unemployment > 6/100 then 1/100
    else if data.consumerConfidence < 90 then 5/1000
    else 0
  max (8/100) (min (18/100) (baseWACC + sizePremium + economicAdjustment))

/-- `getRealTimeMarketMultiple` from `realtime_market_data.ts`:
industry multiple blended with transaction medians by deal-count weight,
scaled by economic and rate environment factors, clamped by
`Math.max(6.0, Math.min(15.0, _))`.  The `ebitda` argument is accepted but
never read, exactly as in the source. -/
def getRealTimeMarketMultiple (ebitda : ℚ) (data : Snapshot) : ℚ :=
  let baseMultiple := data.medispaEbitdaMultiple
  let transactionMultiple := data.medianMultiple
  let activityWeight := min 1 (data.dealCount / 10)
  let blended := baseMultiple * (1 - activityWeight) + transactionMultiple * activityWeight
  let economicMultiplier : ℚ :=
    if data.consumerConfidence > 100 then 105/100
    else if data.consumerConfidence < 85 then 95/100
    else 1
  let rateAdjustment : ℚ :=
    if data.riskFreeRate > 5/100 then 90/100
    else if data.riskFreeRate < 3/100 then 110/100
    else 1
  let _ := ebitda
  max 6 (min 15 (blended * economicMultiplier * rateAdjustment))

/-- The fields of a deal record read by `calculateEnhancedMultiple`
(`location`, `ebitda`, `keyMetrics.ebitdaMargin`, `keyMetrics.growth`,
`keyMetrics.locations`, `marketContext.marketMaturity`,
`marketContext.competitionLevel`). -/
structure Deal where
  location : String
  ebitda : ℚ
  ebitdaMargin : ℚ
  growth : ℚ
  locations : Nat
  marketMaturity : String
  competitionLevel : String

/-- The `locationMultipliers` table of `calculateEnhancedMultiple`;
an unknown location falls through to `1.0` (the JS `|| 1.0`). -/
def locationMultipliers : List (String × ℚ) :=
  [("manhattan", 115/100), ("beverly_hills", 132/100), ("san_francisco", 120/100),
   ("miami", 108/100), ("boston", 112/100), ("dallas", 105/100),
   ("atlanta", 95/100), ("phoenix", 85/100)]

/-- Keyed lookup in the multiplier table with the JS `|| 1.0` default. -/
def lookupMult : List (String × ℚ) → String → ℚ
  | [], _ => 1
  | p :: rest, k => if p.1 = k then p.2 else lookupMult rest k

/-- `calculateEnhancedMultiple` from the deal-analysis script: base multiple
`8.2` times location, size, efficiency, growth, business-model, maturity and
competition adjustments.  Note: the source applies no range clip to the
product. -/
def calculateEnhancedMultiple (deal : Deal) : ℚ :=
  let baseMultiple : ℚ := 82/10
  let locationAdj : ℚ := lookupMult locationMultipliers deal.location
  let sizeAdj : ℚ :=
    if deal.ebitda > 2000000 then 125/100
    else if deal.ebitda > 1000000 then 115/100
    else 95/100
  let margin := deal.ebitdaMargin
  let efficiencyAdj : ℚ :=
    if margin > 28/100 then 112/100
    else if margin > 22/100 then 106/100
    else if margin > 18/100 then 102/100
    else if margin > 15/100 then 1
    else 95/100
  let growthAdj : ℚ := 1 + max (-(2/10)) (min (3/10) ((deal.growth - 8/100) * 2))
  let businessModelAdj : ℚ :=
    if deal.locations > 2 then 103/100
    else if deal.locations = 1 then 98/100
    else 1
  let maturityAdj : ℚ :=
    if deal.marketMaturity = "growing" then 102/100
    else if deal.marketMaturity = "saturated" then 98/100
    else 1
  let competitionAdj : ℚ :=
    if deal.competitionLevel = "very_high" then 97/100
    else if deal.competitionLevel = "high" then 99/100
    else if deal.competitionLevel = "moderate" then 1
    else 102/100
  baseMultiple * locationAdj * sizeAdj * efficiencyAdj *
    growthAdj * businessModelAdj * maturityAdj * competitionAdj

/-- The market bucket of a clinic's location as tested by
`getMarketCalibratedMultiple` via `location.includes("Manhattan")` etc.;
we model the three substring tests on the city name as an enumeration
(plus `none` for an absent location). -/
inductive MarketBucket where
  | manhattanOrBeverlyHills
  | dallasOrAtlanta
  | other
deriving DecidableEq

/-- The input record of `getMarketCalibratedMultiple` / `simulateEnhancedModel`:
`revenue`, `ebitdaMargin` and the (optional) `location` string. -/
structure CalibrationData where
  revenue : ℚ
  ebitdaMargin : ℚ
  location : Option MarketBucket

/-- `getMarketCalibratedMultiple` from the Phase-1 validation script:
base multiple `8.2` scaled by size, margin and geography adjustments,
clamped by `Math.max(6.5, Math.min(12.0, _))`. -/
def getMarketCalibratedMultiple (data : CalibrationData) : ℚ :=
  let m0 : ℚ := 82/10
  let m1 : ℚ :=
    if data.revenue > 10000000 then m0 * (12/10)
    else if data.revenue > 5000000 then m0 * (11/10)
    else if data.revenue < 2000000 then m0 * (85/100)
    else m0
  let m2 : ℚ :=
    if data.ebitdaMargin > 25/100 then m1 * (115/100)
    else if data.ebitdaMargin < 15/100 then m1 * (9/10)
    else m1
  let m3 : ℚ :=
    match data.location with
    | some .manhattanOrBeverlyHills => m2 * (125/100)
    | some .dallasOrAtlanta => m2 * 1
    | _ => m2 * (9/10)
  max (65/10) (min 12 m3)

end MarketData

namespace EPV

/-! ### Series utilities

The Streamlit app derives every statement line from yearly pandas series.
A series is modelled as a `List ℚ` ordered oldest → newest (the code sorts
columns ascending and `series_to_yearly` collapses to one value per year,
so positional alignment of the most recent years models the index
intersection of series sharing a calendar).  The NaN produced by an empty
pandas series is modelled as `0`; no theorem below depends on that case. -/

/-- pandas `Series.tail(n)`: the last `n` elements. -/
def tailN (n : Nat) (l : List ℚ) : List ℚ := l.drop (l.length - n)

/-- Insert into an ascending-sorted list (helper for `sortAsc`). -/
def insertAsc (x : ℚ) : List ℚ → List ℚ
  | [] => [x]
  | y :: ys => if x ≤ y then x :: y :: ys else y :: insertAsc x ys

/-- Ascending insertion sort, modelling `Series.sort_values()`. -/
def sortAsc : List ℚ → List ℚ
  | [] => []
  | x :: xs => insertAsc x (sortAsc xs)

/-- pandas `Series.median()`: middle element of the sorted list, or the mean
of the two middle elements for even length (NaN for empty, modelled as 0). -/
def median (l : List ℚ) : ℚ :=
  let s := sortAsc l
  let n := s.length
  if n = 0 then 0
  else if n % 2 = 1 then s.getD (n / 2) 0
  else (s.getD (n / 2 - 1) 0 + s.getD (n / 2) 0) / 2

/-- pandas `Series.mean()` (NaN for empty, modelled as 0). -/
def mean (l : List ℚ) : ℚ := if l.length = 0 then 0 else l.sum / l.length

/-- pandas `Series.diff().dropna()`: consecutive differences. -/
def diffs (l : List ℚ) : List ℚ := List.zipWith (fun a b => a - b) (l.drop 1) l

/-- Align two series on their common (most recent) years:
`Index.intersection` for series sharing one calendar. -/
def alignTail (l1 l2 : List ℚ) : List ℚ × List ℚ :=
  let k := min l1.length l2.length
  (l1.drop (l1.length - k), l2.drop (l2.length - k))

/-- The `margin_method` choice (`"mean"`, `"trimmed"`, `"median"`). -/
inductive AvgMethod where
  | mean
  | trimmed
  | median
deriving DecidableEq

/-- `safe_avg(series, years, method)` from the app: average the last
`years` values by the chosen method (trimmed mean falls back to the plain
mean below five observations). -/
def safe_avg (l : List ℚ) (years : Nat) (method : AvgMethod) : ℚ :=
  let s := tailN years l
  match method with
  | .mean => mean s
  | .trimmed =>
      if 5 ≤ s.length then
        let t := s.length / 5
        mean ((sortAsc s).drop t |>.take (s.length - 2 * t))
      else mean s
  | .median => median s

/-! ### The financial-statement snapshot consumed by `compute_epv`

`fetch_yf_statements` returns income / balance / cash-flow frames; the
model only ever reads the line items below (via `get_line`, which yields
`None` when a line is absent), plus the scalar `cash`, `total_debt`,
`shares` and `price` entries of the returned dict. -/
structure FinData where
  revenue : Option (List ℚ)
  ebit : Option (List ℚ)
  rd : Option (List ℚ)
  sga : Option (List ℚ)
  da : Option (List ℚ)
  capexSeries : Option (List ℚ)
  ppe : Option (List ℚ)
  lti : Option (List ℚ)
  cash : Option ℚ
  total_debt : Option ℚ
  shares : Option ℚ
  price : Option ℚ

/-- `normalized_values` from the app: median revenue over the window, the
normalized EBIT margin (user override, or mean/trimmed/median of the
historical `ebit / revenue` series), their product, and median D&A. -/
def normalized_values (fin : FinData) (years : Nat) (margin_method : AvgMethod)
    (user_margin : Option ℚ) : ℚ × ℚ × ℚ × ℚ :=
  let rev := fin.revenue.getD []
  let ebit := fin.ebit.getD []
  let da := fin.da.getD []
  let norm_rev := if rev.isEmpty then 0 else median (tailN years rev)
  let norm_margin :=
    match user_margin with
    | some m => if 0 < m then m else marginHist rev ebit years margin_method
    | none => marginHist rev ebit years margin_method
  let norm_ebit := norm_rev * norm_margin
  let norm_da := if da.isEmpty then 0 else median (tailN years da)
  (norm_rev, norm_margin, norm_ebit, norm_da)
where
  /-- The historical-margin branch of `normalized_values`. -/
  marginHist (rev ebit : List ℚ) (years : Nat) (margin_method : AvgMethod) : ℚ :=
    let p := alignTail ebit rev
    let margin := List.zipWith (fun e r => e / r) p.1 p.2
    match margin_method with
    | .mean => if margin.isEmpty then 0 else mean (tailN years margin)
    | .trimmed =>
        let mm := tailN years margin
        if 5 ≤ mm.length then
          let t := mm.length / 5
          mean ((sortAsc mm).drop t |>.take (mm.length - 2 * t))
        else if mm.isEmpty then 0 else mean mm
    | .median => if margin.isEmpty then 0 else median (tailN years margin)

/-- The `maintenance_method` choice (`"depr_factor"` or sales-based). -/
inductive MaintMethod where
  | depr_factor
  | sales_based
deriving DecidableEq

/-- `estimate_maintenance_capex` from the app.  Returns
`(maintenance capex, average capex, average D&A)`; the sales-based path
estimates growth capex from capital intensity times average revenue
increase, falling back to the depreciation factor when data is missing. -/
def estimate_maintenance_capex (method : MaintMethod) (fin : FinData)
    (years : Nat) (maint_factor : ℚ) (capital_intensity_years : Nat) : ℚ × ℚ × ℚ :=
  let capex :=
    match fin.capexSeries with
    | some s => -(safe_avg s years .median)
    | none => 0
  let da :=
    match fin.da with
    | some s => |safe_avg s years .median|
    | none => 0
  let fallback := (da * maint_factor, capex, da)
  match method with
  | .depr_factor => fallback
  | .sales_based =>
      match fin.revenue, fin.ppe with
      | some rev, some ppe =>
          let p := alignTail rev ppe
          if p.1.isEmpty ∨ p.2.isEmpty then fallback
          else
            let rev_tail := tailN capital_intensity_years p.1
            let ppe_tail := tailN capital_intensity_years p.2
            if rev_tail.isEmpty ∨ ppe_tail.isEmpty ∨ mean rev_tail = 0 then fallback
            else
              let capital_intensity := mean ppe_tail / mean rev_tail
              let rev_change := diffs rev_tail
              let avg_rev_increase := if rev_change.isEmpty then 0 else mean rev_change
              let growth_capex_est := capital_intensity * max 0 avg_rev_increase
              let m1 := max 0 (capex - growth_capex_est)
              let maint := if m1 ≤ 0 then da * min 1 maint_factor else m1
              (maint, capex, da)
      | _, _ => fallback

/-- `compute_wacc` from the app: WACC override when positive, else CAPM (or
direct) cost of equity blended with after-tax cost of debt at the clipped
equity weight. -/
def compute_wacc (rf mrp beta cost_of_debt tax_rate equity_weight : ℚ)
    (wacc_override : Option ℚ) (use_capm : Bool) : ℚ :=
  match wacc_override with
  | some w => if 0 < w then w else waccBody rf mrp beta cost_of_debt tax_rate equity_weight use_capm
  | none => waccBody rf mrp beta cost_of_debt tax_rate equity_weight use_capm
where
  /-- The non-override branch of `compute_wacc`. -/
  waccBody (rf mrp beta cost_of_debt tax_rate equity_weight : ℚ) (use_capm : Bool) : ℚ :=
    let re := if use_capm then rf + beta * mrp else beta
    let ew := max 0 (min 1 equity_weight)
    let dw := 1 - ew
    let rd_after_tax := cost_of_debt * (1 - tax_rate)
    re * ew + rd_after_tax * dw

/-- `capitalize_series` from the app: sum of the last `years` values,
latest first, each weighted by its remaining straight-line life fraction. -/
def capitalize_series (l : List ℚ) (years amort_years : Nat) : ℚ :=
  let s := tailN years l
  (((s.reverse).enum).map
    (fun p => p.2 * (((amort_years - p.1 : Nat) : ℚ) / (amort_years : ℚ)))).sum

/-- `EPVInputs` from the app (all assumption fields of the dataclass). -/
structure EPVInputs where
  years : Nat
  margin_method : AvgMethod
  normalized_margin : Option ℚ
  tax_rate : ℚ
  rf_rate : ℚ
  mrp : ℚ
  beta : ℚ
  cost_of_debt : ℚ
  use_capm : Bool
  equity_weight : ℚ
  maintenance_method : MaintMethod
  maint_factor : ℚ
  capital_intensity_years : Nat
  excess_cash_pct : ℚ
  rd_capitalize : Bool
  rd_years : Nat
  sga_capitalize : Bool
  sga_years : Nat
  other_adjustments : ℚ
  use_manual_shares : Bool
  manual_shares : Option ℚ
  use_manual_price : Bool
  manual_price : Option ℚ
  wacc_override : Option ℚ

/-- `EPVOutputs` from the app.  Fields that are `NaN` in Python when shares
or price are unavailable (`value_per_share`, `upside`) are modelled as `0`
in that case; the theorems below only use them where shares are positive. -/
structure EPVOutputs where
  normalized_revenue : ℚ
  normalized_margin : ℚ
  normalized_ebit : ℚ
  normalized_da : ℚ
  maintenance_capex : ℚ
  epo_after_tax : ℚ
  wacc : ℚ
  value_operations : ℚ
  cash_adjusted : ℚ
  non_operating_assets : ℚ
  debt : ℚ
  other_adjustments : ℚ
  equity_value : ℚ
  shares : ℚ
  value_per_share : ℚ
  price : ℚ
  upside : ℚ

/-- `compute_epv` from the app: normalize EBIT and D&A, subtract maintenance
capex, tax the result, floor the WACC at `0.03`, capitalize
`max(0, after-tax earnings power)`, then bridge to equity via excess cash,
non-operating assets, debt and manual adjustments. -/
def compute_epv (fin : FinData) (inputs : EPVInputs) : EPVOutputs :=
  let nv := normalized_values fin inputs.years inputs.margin_method inputs.normalized_margin
  let norm_rev := nv.1
  let norm_margin := nv.2.1
  let norm_ebit := nv.2.2.1
  let norm_da := nv.2.2.2
  let mc := estimate_maintenance_capex inputs.maintenance_method fin inputs.years
    inputs.maint_factor inputs.capital_intensity_years
  let maint_capex := mc.1
  let rd_capital :=
    if inputs.rd_capitalize then capitalize_series (fin.rd.getD []) inputs.years inputs.rd_years
    else 0
  let sga_capital :=
    if inputs.sga_capitalize then capitalize_series (fin.sga.getD []) inputs.years inputs.sga_years
    else 0
  let rd_latest := (fin.rd.getD []).getLastD 0
  let sga_latest := (fin.sga.getD []).getLastD 0
  let rd_amort := if inputs.rd_capitalize ∧ 0 < inputs.rd_years then rd_capital / inputs.rd_years else 0
  let sga_amort := if inputs.sga_capitalize ∧ 0 < inputs.sga_years then sga_capital / inputs.sga_years else 0
  let ebit_adj0 := norm_ebit
  let ebit_adj1 := if inputs.rd_capitalize then ebit_adj0 + rd_latest - rd_amort else ebit_adj0
  let ebit_adj := if inputs.sga_capitalize then ebit_adj1 + sga_latest - sga_amort else ebit_adj1
  let pre_tax_operating := ebit_adj + norm_da - maint_capex
  let tax_rate := max 0 (min (1/2) inputs.tax_rate)
  let epo_after_tax := pre_tax_operating * (1 - tax_rate)
  let wacc0 := compute_wacc inputs.rf_rate inputs.mrp inputs.beta inputs.cost_of_debt
    tax_rate inputs.equity_weight inputs.wacc_override inputs.use_capm
  let wacc := max (3/100) wacc0
  let value_operations := max 0 epo_after_tax / wacc
  let cash_balance := fin.cash.getD 0
  let excess_cash := cash_balance * inputs.excess_cash_pct
  let non_op_assets := (fin.lti.getD []).getLastD 0 + rd_capital + sga_capital
  let debt := fin.total_debt.getD 0
  let equity_value := value_operations + excess_cash + non_op_assets - debt + inputs.other_adjustments
  let shares : Option ℚ :=
    if inputs.use_manual_shares && (inputs.manual_shares.any fun m => decide (0 < m))
    then inputs.manual_shares else fin.shares
  let value_per_share :=
    match shares with
    | some s => if 0 < s then equity_value / s else 0
    | none => 0
  let price : Option ℚ :=
    if inputs.use_manual_price && (inputs.manual_price.any fun m => decide (0 < m))
    then inputs.manual_price else fin.price
  let pricev := price.getD 0
  let upside := if 0 < pricev ∧ 0 < value_per_share then value_per_share / pricev - 1 else 0
  { normalized_revenue := norm_rev
    normalized_margin := norm_margin
    normalized_ebit := ebit_adj
    normalized_da := norm_da
    maintenance_capex := maint_capex
    epo_after_tax := epo_after_tax
    wacc := wacc
    value_operations := value_operations
    cash_adjusted := excess_cash
    non_operating_assets := non_op_assets
    debt := debt
    other_adjustments := inputs.other_adjustments
    equity_value := equity_value
    shares := shares.getD 0
    value_per_share := value_per_share
    price := pricev
    upside := upside }

/-! ### Tornado analysis -/

/-- The assumption fields shocked by `tornado_data` / the sensitivity UI
(`setattr(inputs, param, ...)` on float fields of `EPVInputs`; for the
optional `wacc_override` the getter reads the stored value when one is set,
matching `getattr` on an input whose override is a float). -/
inductive EParam where
  | tax_rate
  | rf_rate
  | mrp
  | beta
  | cost_of_debt
  | equity_weight
  | maint_factor
  | excess_cash_pct
  | other_adjustments
  | wacc_override
deriving DecidableEq

/-- `getattr(inputs, param)`. -/
def getParam (inputs : EPVInputs) : EParam → ℚ
  | .tax_rate => inputs.tax_rate
  | .rf_rate => inputs.rf_rate
  | .mrp => inputs.mrp
  | .beta => inputs.beta
  | .cost_of_debt => inputs.cost_of_debt
  | .equity_weight => inputs.equity_weight
  | .maint_factor => inputs.maint_factor
  | .excess_cash_pct => inputs.excess_cash_pct
  | .other_adjustments => inputs.other_adjustments
  | .wacc_override => inputs.wacc_override.getD 0

/-- `setattr(inputs, param, v)`. -/
def setParam (inputs : EPVInputs) (p : EParam) (v : ℚ) : EPVInputs :=
  match p with
  | .tax_rate => { inputs with tax_rate := v }
  | .rf_rate => { inputs with rf_rate := v }
  | .mrp => { inputs with mrp := v }
  | .beta => { inputs with beta := v }
  | .cost_of_debt => { inputs with cost_of_debt := v }
  | .equity_weight => { inputs with equity_weight := v }
  | .maint_factor => { inputs with maint_factor := v }
  | .excess_cash_pct => { inputs with excess_cash_pct := v }
  | .other_adjustments => { inputs with other_adjustments := v }
  | .wacc_override => { inputs with wacc_override := some v }

/-- One row of the dataframe returned by `tornado_data`. -/
structure TornadoRecord where
  parameter : EParam
  low : ℚ
  high : ℚ
  base : ℚ
deriving DecidableEq

/-- Insert into a list sorted descending on `high`
(helper for `sortDescHigh`). -/
def insertDescHigh (r : TornadoRecord) : List TornadoRecord → List TornadoRecord
  | [] => [r]
  | x :: xs => if x.high ≤ r.high then r :: x :: xs else x :: insertDescHigh r xs

/-- `DataFrame.sort_values(by=["high"], ascending=False)`: sort the records
descending on the signed `high` column. -/
def sortDescHigh : List TornadoRecord → List TornadoRecord
  | [] => []
  | x :: xs => insertDescHigh x (sortDescHigh xs)

/-- `tornado_data` from the app: for each shocked parameter, re-run
`compute_epv` with the parameter scaled by `1 + down` and `1 + up`, record
the low/high deltas of value per share from the base case, and sort the
records descending on the signed `high` column. -/
def tornado_data (base_inputs : EPVInputs) (fin : FinData)
    (shocks : List (EParam × ℚ × ℚ)) : List TornadoRecord :=
  let base_vps := (compute_epv fin base_inputs).value_per_share
  let records := shocks.map (fun s =>
    let param := s.1
    let down := s.2.1
    let up := s.2.2
    let inp_low := setParam base_inputs param (getParam base_inputs param * (1 + down))
    let low_vps := (compute_epv fin inp_low).value_per_share
    let inp_high := setParam base_inputs param (getParam base_inputs param * (1 + up))
    let high_vps := (compute_epv fin inp_high).value_per_share
    { parameter := param
      low := low_vps - base_vps
      high := high_vps - base_vps
      base := base_vps : TornadoRecord })
  sortDescHigh records

end EPV

namespace SummitPE

/-! ### Data model of `medispa_valuation_cli.py` (`summit_pe.txt`)

The dataclasses are carried over field by field; Python `Dict[str, float]`
fields become association lists.  Fields never read by the valuation
computation (`name`, `currency`, `inflation`, `cash_minimum`) are omitted
from `ModelConfig`. -/

structure ProcedureCategory where
  name : String
  avg_price_year1 : ℚ
  price_inflation : ℚ
  avg_duration_min : ℚ
  material_cost_per_proc : ℚ
  volume_growth : ℚ

structure ProviderType where
  name : String
  fte_per_clinic_year1 : ℚ
  fte_growth : ℚ
  base_salary_per_fte : ℚ
  benefits_load : ℚ
  commission_by_category : List (String × ℚ)
  hours_per_week : ℚ
  weeks_per_year : ℚ
  utilization : ℚ
  category_mix : List (String × ℚ)

structure EquipmentAsset where
  name : String
  cost : ℚ
  purchase_year : Nat
  life_years : Nat
  salvage_value : ℚ
  annual_maintenance_pct : ℚ

structure FixedExpense where
  name : String
  amount_year1 : ℚ
  growth : ℚ

structure VariableExpense where
  name : String
  pct_of_revenue : ℚ

structure MembershipSettings where
  monthly_fee : ℚ
  members_per_clinic_year1 : Int
  members_growth : ℚ
  annual_churn : ℚ

structure RetailSettings where
  pct_of_service_revenue : ℚ
  gross_margin : ℚ

structure WorkingCapitalSettings where
  dso_days : Int
  dio_days : Int
  dpo_days : Int
  membership_deferral_months : Int

structure WACCSettings where
  risk_free_rate : ℚ
  equity_risk_premium : ℚ
  beta : ℚ
  size_premium : ℚ
  specific_risk : ℚ
  pre_tax_cost_of_debt : ℚ
  target_debt_to_total_cap : ℚ
  tax_rate : ℚ

/-- `terminal.method`, `"gordon"` or `"exit"`. -/
inductive TerminalMethod where
  | gordon
  | exit
deriving DecidableEq

structure TerminalSettings where
  method : TerminalMethod
  gordon_growth : ℚ
  exit_ebitda_multiple : ℚ

structure ExpansionSettings where
  clinics_year1 : Int
  new_clinics_per_year : List Int

structure ModelConfig where
  forecast_years : Nat
  corporate_tax_rate : ℚ
  procedure_categories : List ProcedureCategory
  provider_types : List ProviderType
  equipment_assets : List EquipmentAsset
  fixed_opex : List FixedExpense
  variable_opex : List VariableExpense
  membership : MembershipSettings
  retail : RetailSettings
  working_capital : WorkingCapitalSettings
  wacc : WACCSettings
  terminal : TerminalSettings
  expansion : ExpansionSettings
  maintenance_capex_pct_of_revenue : ℚ
  net_debt : ℚ

/-- Python `int(x)`: truncation toward zero. -/
def pyInt (q : ℚ) : Int := if 0 ≤ q then q.floor else q.ceil

/-- `Dict.get(key, 0.0)` on an association list (`_safe_get`). -/
def lookupD : List (String × ℚ) → String → ℚ
  | [], _ => 0
  | p :: rest, k => if p.1 = k then p.2 else lookupD rest k

/-- The single terminal-assumption check performed by `_validate_config`:
a Gordon growth at or above `risk_free_rate + equity_risk_premium` appends a
warning string.  The constructor only prints these warnings — no exception
is ever raised and the forecast still runs. -/
def gordonWarning (cfg : ModelConfig) : Prop :=
  cfg.terminal.method = .gordon ∧
    cfg.wacc.risk_free_rate + cfg.wacc.equity_risk_premium ≤ cfg.terminal.gordon_growth

instance (cfg : ModelConfig) : Decidable (gordonWarning cfg) := by
  unfold gordonWarning; infer_instance

/-- Loop body of `clinics_by_year`: year 1 keeps the starting count, later
years add that year's entry of the (zero-padded) additions list. -/
def clinicsLoop (total : Int) (first : Bool) : List Int → List Int
  | [] => []
  | a :: rest =>
      let t := if first then total else total + a
      t :: clinicsLoop t false rest

/-- `ValuationModel.clinics_by_year`. -/
def clinics_by_year (cfg : ModelConfig) : List Int :=
  let n := cfg.forecast_years
  let adds0 := cfg.expansion.new_clinics_per_year
  let adds := (adds0 ++ List.replicate (n - adds0.length) 0).take n
  clinicsLoop cfg.expansion.clinics_year1 true adds

/-- Membership dynamics loop: each year the (integer-truncated) member
count shrinks by churn and grows by sign-ups; the recorded value is floored
at zero while the carried value is not. -/
def membersLoop (churn growth : ℚ) : Nat → Int → List Int
  | 0, _ => []
  | k + 1, members =>
      let members2 := pyInt ((members : ℚ) * (1 - churn) * (1 + growth))
      max 0 members2 :: membersLoop churn growth k members2

/-- `members_by_year` as accumulated in `run_forecast`. -/
def members_by_year (cfg : ModelConfig) : List Int :=
  membersLoop cfg.membership.annual_churn cfg.membership.members_growth
    cfg.forecast_years cfg.membership.members_per_clinic_year1

/-- Straight-line depreciation hitting forecast year `idx` (0-based), summed
over the equipment assets with an in-horizon purchase year. -/
def dep_by_year (cfg : ModelConfig) (idx : Nat) : ℚ :=
  (cfg.equipment_assets.map (fun a =>
    if 1 ≤ a.purchase_year ∧ a.purchase_year ≤ cfg.forecast_years ∧
        a.purchase_year - 1 ≤ idx ∧ idx < a.purchase_year - 1 + a.life_years then
      max 0 ((a.cost - a.salvage_value) / (a.life_years : ℚ))
    else 0)).sum

/-- Purchase capex hitting forecast year `idx` (0-based). -/
def capex_by_year (cfg : ModelConfig) (idx : Nat) : ℚ :=
  (cfg.equipment_assets.map (fun a =>
    if 1 ≤ a.purchase_year ∧ a.purchase_year ≤ cfg.forecast_years ∧
        a.purchase_year - 1 = idx then a.cost
    else 0)).sum

/-- Equipment maintenance (percent of initial cost) hitting year `idx`. -/
def maint_by_year (cfg : ModelConfig) (idx : Nat) : ℚ :=
  (cfg.equipment_assets.map (fun a =>
    if 1 ≤ a.purchase_year ∧ a.purchase_year ≤ cfg.forecast_years ∧
        a.purchase_year - 1 ≤ idx then a.annual_maintenance_pct * a.cost
    else 0)).sum

/-- Capacity minutes a provider supplies in year `idx` at `nc` clinics. -/
def minutes_total (p : ProviderType) (idx : Nat) (nc : ℚ) : ℚ :=
  p.fte_per_clinic_year1 * (1 + p.fte_growth) ^ idx * nc *
    p.hours_per_week * p.weeks_per_year * 60 * p.utilization

/-- Total provider minutes allocated to category `cname` in year `idx`
(the `cat_minutes` accumulation of the forecast loop). -/
def cat_minutes (cfg : ModelConfig) (idx : Nat) (nc : ℚ) (cname : String) : ℚ :=
  (cfg.provider_types.map (fun p => lookupD p.category_mix cname * minutes_total p idx nc)).sum

/-- Per-category economics for year `idx`:
`(revenue, material cost, commission cost)` as in the category loop of
`run_forecast` (capacity-constrained procedures, inflated price, commission
allocated to providers by minute share). -/
def categoryEcon (cfg : ModelConfig) (idx : Nat) (nc : ℚ) (c : ProcedureCategory) : ℚ × ℚ × ℚ :=
  let minutes := cat_minutes cfg idx nc c.name
  let procs_supply := minutes / max (1/1000000) c.avg_duration_min
  let unit_growth_multiplier := (1 + c.volume_growth) ^ idx
  let procs := min procs_supply (procs_supply * unit_growth_multiplier)
  let price := c.avg_price_year1 * (1 + c.price_inflation) ^ idx
  let revenue := procs * price
  let mat_cost := procs * c.material_cost_per_proc
  let commission :=
    if 0 < minutes then
      (cfg.provider_types.map (fun p =>
        let pmins := lookupD p.category_mix c.name * minutes_total p idx nc
        if pmins ≤ 0 then 0
        else revenue * (pmins / minutes) * lookupD p.commission_by_category c.name)).sum
    else 0
  (revenue, mat_cost, commission)

/-- One row of the `results` list built by `run_forecast` (the per-year
dict, minus the presentation-only category breakdown). -/
structure YearRow where
  year : Nat
  clinics : Int
  service_revenue : ℚ
  membership_revenue : ℚ
  retail_revenue : ℚ
  total_revenue : ℚ
  material_costs : ℚ
  retail_cogs : ℚ
  commission_costs : ℚ
  provider_fixed_comp : ℚ
  gross_profit : ℚ
  fixed_opex : ℚ
  variable_opex : ℚ
  ebitda : ℚ
  depreciation : ℚ
  ebit : ℚ
  nopat : ℚ
  capex : ℚ
  delta_nwc : ℚ
  ufcf : ℚ
  ar : ℚ
  inv : ℚ
  ap : ℚ
  deferred_rev : ℚ
deriving DecidableEq

/-- All-zero row, standing in where Python would raise `IndexError`
(`results[-1]` on an empty forecast); theorems about the terminal value
assume a nonempty horizon. -/
def defaultRow : YearRow :=
  { year := 0, clinics := 0, service_revenue := 0, membership_revenue := 0,
    retail_revenue := 0, total_revenue := 0, material_costs := 0, retail_cogs := 0,
    commission_costs := 0, provider_fixed_comp := 0, gross_profit := 0,
    fixed_opex := 0, variable_opex := 0, ebitda := 0, depreciation := 0,
    ebit := 0, nopat := 0, capex := 0, delta_nwc := 0, ufcf := 0,
    ar := 0, inv := 0, ap := 0, deferred_rev := 0 }

/-- The working-capital balances carried between forecast years
(`ar_last, inv_last, ap_last, defrev_last`). -/
structure Lasts where
  ar : ℚ
  inv : ℚ
  ap : ℚ
  defrev : ℚ

/-- The body of the forecast loop of `run_forecast` for 0-based year `idx`,
given the carried working-capital balances. -/
def yearRow (cfg : ModelConfig) (idx : Nat) (last : Lasts) : YearRow :=
  let nci := (clinics_by_year cfg).getD idx 0
  let nc : ℚ := (nci : ℚ)
  let cats := cfg.procedure_categories.map (categoryEcon cfg idx nc)
  let service_revenue := (cats.map (fun t => t.1)).sum
  let material_costs := (cats.map (fun t => t.2.1)).sum
  let commission_costs := (cats.map (fun t => t.2.2)).sum
  let members_count : Int := (members_by_year cfg).getD idx 0 * nci
  let membership_rev_gross := (members_count : ℚ) * cfg.membership.monthly_fee * 12
  let membership_def_months := cfg.working_capital.membership_deferral_months
  let deferred_portion :=
    if 0 < membership_def_months then
      membership_rev_gross * ((membership_def_months : ℚ) / 12)
    else 0
  let retail_revenue := service_revenue * cfg.retail.pct_of_service_revenue
  let retail_cogs := retail_revenue * (1 - cfg.retail.gross_margin)
  let total_revenue := service_revenue + membership_rev_gross + retail_revenue
  let provider_fixed_comp := (cfg.provider_types.map (fun p =>
    p.fte_per_clinic_year1 * (1 + p.fte_growth) ^ idx * nc *
      p.base_salary_per_fte * (1 + p.benefits_load))).sum
  let fixed_opex_sum := (cfg.fixed_opex.map (fun fe => fe.amount_year1 * (1 + fe.growth) ^ idx)).sum
  let variable_opex_sum := (cfg.variable_opex.map (fun ve => total_revenue * ve.pct_of_revenue)).sum
  let maint_capex := cfg.maintenance_capex_pct_of_revenue * total_revenue + maint_by_year cfg idx
  let capex := capex_by_year cfg idx + maint_capex
  let cogs := material_costs + retail_cogs + commission_costs + provider_fixed_comp
  let gross_profit := total_revenue - cogs
  let opex_total := fixed_opex_sum + variable_opex_sum
  let ebitda := gross_profit - opex_total
  let depreciation := dep_by_year cfg idx
  let ebit := ebitda - depreciation
  let nopat := ebit * (1 - cfg.corporate_tax_rate)
  let days : ℚ := 365
  let ar := total_revenue * ((cfg.working_capital.dso_days : ℚ) / days)
  let inv := (material_costs + retail_cogs) * ((cfg.working_capital.dio_days : ℚ) / days)
  let ap := (material_costs + retail_cogs) * ((cfg.working_capital.dpo_days : ℚ) / days)
  let defrev := deferred_portion
  let delta_nwc := (ar - last.ar) + (inv - last.inv) - (ap - last.ap) + (defrev - last.defrev)
  let ufcf := nopat + depreciation - capex - delta_nwc
  { year := idx + 1, clinics := nci, service_revenue := service_revenue,
    membership_revenue := membership_rev_gross, retail_revenue := retail_revenue,
    total_revenue := total_revenue, material_costs := material_costs,
    retail_cogs := retail_cogs, commission_costs := commission_costs,
    provider_fixed_comp := provider_fixed_comp, gross_profit := gross_profit,
    fixed_opex := fixed_opex_sum, variable_opex := variable_opex_sum,
    ebitda := ebitda, depreciation := depreciation, ebit := ebit, nopat := nopat,
    capex := capex, delta_nwc := delta_nwc, ufcf := ufcf,
    ar := ar, inv := inv, ap := ap, deferred_rev := defrev }

/-- Forecast loop: `m` remaining years starting at 0-based year `idx` with
carried working-capital balances. -/
def forecastGo (cfg : ModelConfig) : Nat → Nat → Lasts → List YearRow
  | 0, _, _ => []
  | m + 1, idx, last =>
      let row := yearRow cfg idx last
      row :: forecastGo cfg m (idx + 1) ⟨row.ar, row.inv, row.ap, row.deferred_rev⟩

/-- The full `results` list of `run_forecast`. -/
def forecastRows (cfg : ModelConfig) : List YearRow :=
  forecastGo cfg cfg.forecast_years 0 ⟨0, 0, 0, 0⟩

/-- `ValuationModel.wacc`: CAPM cost of equity (beta, size and specific
premium) blended with after-tax cost of debt at target leverage.  (Named
`waccOf` because `ModelConfig` already has a `wacc` settings field.) -/
def waccOf (cfg : ModelConfig) : ℚ :=
  let w := cfg.wacc
  let ke := w.risk_free_rate + w.beta * w.equity_risk_premium + w.size_premium + w.specific_risk
  let kd_after := w.pre_tax_cost_of_debt * (1 - w.tax_rate)
  let D := w.target_debt_to_total_cap
  let E := 1 - D
  E * ke + D * kd_after

/-- The `meta` dict returned by `run_forecast`. -/
structure Meta where
  wacc : ℚ
  pv_flows : ℚ
  terminal_value : ℚ
  pv_terminal : ℚ
  enterprise_value : ℚ
  equity_value : ℚ

/-- The terminal value computed at the end of `run_forecast`: Gordon
perpetuity on the final unlevered FCF, or exit multiple on final EBITDA.
No precondition is checked: the Gordon branch divides by
`wacc - gordon_growth` unconditionally (`x / 0 = 0` in Lean where Python
raises `ZeroDivisionError`). -/
def terminalValueAt (cfg : ModelConfig) (rows : List YearRow) (wacc : ℚ) : ℚ :=
  let last := rows.getLastD defaultRow
  match cfg.terminal.method with
  | .gordon => last.ufcf * (1 + cfg.terminal.gordon_growth) / (wacc - cfg.terminal.gordon_growth)
  | .exit => last.ebitda * cfg.terminal.exit_ebitda_multiple

/-- The discounting tail of `run_forecast` at discount rate `wacc`:
present value of the cash-flow series with 1-based discount factors, plus
the discounted terminal value, the EV bridge and the equity bridge. -/
def valuationMeta (cfg : ModelConfig) (rows : List YearRow) (wacc : ℚ) : Meta :=
  let cashflows := rows.map (fun r => r.ufcf)
  let years_len := cashflows.length
  let discount_factors := (List.range years_len).map (fun i => 1 / (1 + wacc) ^ (i + 1))
  let pv_flows := (List.zipWith (fun cf df => cf * df) cashflows discount_factors).sum
  let tv := terminalValueAt cfg rows wacc
  let pv_tv := tv / (1 + wacc) ^ years_len
  let ev := pv_flows + pv_tv
  let equity_value := ev - cfg.net_debt
  { wacc := wacc, pv_flows := pv_flows, terminal_value := tv, pv_terminal := pv_tv,
    enterprise_value := ev, equity_value := equity_value }

/-- `ValuationModel.run_forecast`: the per-year results plus the valuation
meta dict at the model's own WACC. -/
def run_forecast (cfg : ModelConfig) : List YearRow × Meta :=
  let rows := forecastRows cfg
  (rows, valuationMeta cfg rows (waccOf cfg))

/-- Enterprise value of a configuration re-discounted at rate `r` with every
operating assumption held fixed (the forecast rows of `run_forecast` do not
read the WACC settings, so this is exactly `run_forecast` after a
discount-rate override such as the `_set_wacc` helper performs). -/
def ev_at (cfg : ModelConfig) (r : ℚ) : ℚ :=
  (valuationMeta cfg (forecastRows cfg) r).enterprise_value

/-! ### Monte Carlo (`mc` command)

The process-global numpy generator is modelled as an explicit `Nat` state
threaded through the draws; `np.random.seed(seed)` replaces the ambient
state by the seed.  `np.random.normal(loc, scale)` is modelled as a
deterministic function of the generator state — the reproducibility
property proved below depends only on the draws being a deterministic
function of that state, not on their distribution. -/

/-- Generator state transition (one consumed draw). -/
def rngNext (g : Nat) : Nat := (1103515245 * g + 12345) % 2147483648

/-- Model of `np.random.normal(loc, scale)`: a value and the next state. -/
def normalDraw (loc scale : ℚ) (g : Nat) : ℚ × Nat :=
  (loc + scale * (((g % 2001 : Nat) : ℚ) - 1000) / 1000, rngNext g)

/-- `np.clip(x, lo, hi)`. -/
def npClip (x lo hi : ℚ) : ℚ := min (max x lo) hi

/-- `_set_wacc`: nudge `specific_risk` (floored at 0) so the computed WACC
moves by `new_wacc - current`. -/
def set_wacc (c : ModelConfig) (new_wacc : ℚ) : ModelConfig :=
  let curr := waccOf c
  let delta := new_wacc - curr
  { c with wacc := { c.wacc with specific_risk := max 0 (c.wacc.specific_risk + delta) } }

/-- `_set_exit`. -/
def set_exit (c : ModelConfig) (m : ℚ) : ModelConfig :=
  { c with terminal := { c.terminal with method := .exit, exit_ebitda_multiple := m } }

/-- `_set_util`. -/
def set_util (c : ModelConfig) (pname : String) (u : ℚ) : ModelConfig :=
  { c with provider_types := c.provider_types.map (fun p =>
      if p.name = pname then { p with utilization := u } else p) }

/-- `_set_cat_infl`. -/
def set_cat_infl (c : ModelConfig) (cname : String) (infl : ℚ) : ModelConfig :=
  { c with procedure_categories := c.procedure_categories.map (fun cat =>
      if cat.name = cname then { cat with price_inflation := infl } else cat) }

/-- `_set_varpct`. -/
def set_varpct (c : ModelConfig) (vname : String) (pct : ℚ) : ModelConfig :=
  { c with variable_opex := c.variable_opex.map (fun v =>
      if v.name = vname then { v with pct_of_revenue := pct } else v) }

/-- One iteration of the `mc` command: draw WACC, exit multiple (only under
the exit method — the numpy draw is not consumed otherwise, as in the
source), injector utilization, injectables inflation and marketing
percentage, apply them to a fresh copy of the base config, and run the
forecast.  Returns the enterprise value and the generator state. -/
def mcIteration (base : ModelConfig) (g0 : Nat) : ℚ × Nat :=
  let d1 := normalDraw (waccOf base) (75/10000) g0
  let wacc_draw := npClip d1.1 (7/100) (20/100)
  let c1 := set_wacc base wacc_draw
  let s2 : ModelConfig × Nat :=
    if c1.terminal.method = .exit then
      let d2 := normalDraw c1.terminal.exit_ebitda_multiple (12/10) d1.2
      (set_exit c1 (npClip d2.1 6 14), d2.2)
    else (c1, d1.2)
  let d3 := normalDraw (80/100) (5/100) s2.2
  let c3 := set_util s2.1 "Injector (NP/PA/RN)" (npClip d3.1 (60/100) (92/100))
  let d4 := normalDraw (3/100) (1/100) d3.2
  let c4 := set_cat_infl c3 "Injectables" (npClip d4.1 (5/1000) (6/100))
  let d5 := normalDraw (8/100) (15/1000) d4.2
  let c5 := set_varpct c4 "Marketing" (npClip d5.1 (4/100) (14/100))
  ((run_forecast c5).2.enterprise_value, d5.2)

/-- The iteration loop of the `mc` command. -/
def mcLoop (base : ModelConfig) : Nat → Nat → List ℚ
  | 0, _ => []
  | k + 1, g =>
      let r := mcIteration base g
      r.1 :: mcLoop base k r.2

/-- The `mc` command: `g` is the ambient process-global generator state;
when a seed is supplied, `np.random.seed(seed)` replaces that state before
any draw.  Returns the `evs` sample-outcome sequence. -/
def monte_carlo (g : Nat) (seed : Option Nat) (iterations : Nat) (base : ModelConfig) : List ℚ :=
  let g0 := match seed with
    | some s => s
    | none => g
  mcLoop base iterations g0

/-- The discounted cash-flow sum of `run_forecast` written as a recursion
on the cash-flow list with the discount exponent as an argument; the
theorem `summit_pv_sum_eq_pvRec` identifies it with the
`zipWith`-over-`range` form the source computes. -/
def pvRec (w : ℚ) : Nat → List ℚ → ℚ
  | _, [] => 0
  | k, c :: cs => c * (1 / (1 + w) ^ k) + pvRec w (k + 1) cs

end SummitPE

namespace Fixtures

/-! ### Concrete inputs used by the counterexamples and witnesses below.
Each is a legal value of the corresponding source data model. -/

open SummitPE MarketData EPV

/-- A high-end deal as the deal-analysis script models them: Beverly Hills
location, EBITDA above $2M, 30% margin, 25% growth, three locations, a
growing market and low competition. -/
def dealC8 : Deal :=
  { location := "beverly_hills", ebitda := 2500000, ebitdaMargin := 3/10,
    growth := 1/4, locations := 3, marketMaturity := "growing",
    competitionLevel := "low" }

/-- Zeroed WACC settings (overridden per fixture). -/
def zeroWACC : WACCSettings :=
  { risk_free_rate := 0, equity_risk_premium := 0, beta := 0, size_premium := 0,
    specific_risk := 0, pre_tax_cost_of_debt := 0, target_debt_to_total_cap := 0,
    tax_rate := 0 }

/-- Inactive membership / retail / working-capital settings shared by the
single-clinic fixtures. -/
def quietMembership : MembershipSettings :=
  { monthly_fee := 0, members_per_clinic_year1 := 0, members_growth := 0,
    annual_churn := 0 }

def quietRetail : RetailSettings := { pct_of_service_revenue := 0, gross_margin := 1 }

def zeroWC : WorkingCapitalSettings :=
  { dso_days := 0, dio_days := 0, dpo_days := 0, membership_deferral_months := 0 }

def oneClinic : ExpansionSettings := { clinics_year1 := 1, new_clinics_per_year := [0] }

/-- One service category at $100 with no inflation and no material cost. -/
def svcCategory : ProcedureCategory :=
  { name := "Svc", avg_price_year1 := 100, price_inflation := 0,
    avg_duration_min := 60, material_cost_per_proc := 0, volume_growth := 0 }

/-- One provider supplying exactly 60 capacity minutes a year to `"Svc"`,
at zero salary and commission. -/
def svcProvider : ProviderType :=
  { name := "P", fte_per_clinic_year1 := 1, fte_growth := 0, base_salary_per_fte := 0,
    benefits_load := 0, commission_by_category := [], hours_per_week := 1,
    weeks_per_year := 1, utilization := 1, category_mix := [("Svc", 1)] }

/-- A one-year Gordon configuration whose WACC (2%) is below its terminal
growth (4%): $100 of free cash flow, no costs, no debt. -/
def cfgGordonBad : ModelConfig :=
  { forecast_years := 1, corporate_tax_rate := 0,
    procedure_categories := [svcCategory], provider_types := [svcProvider],
    equipment_assets := [], fixed_opex := [], variable_opex := [],
    membership := quietMembership, retail := quietRetail, working_capital := zeroWC,
    wacc := { zeroWACC with risk_free_rate := 2/100, equity_risk_premium := 3/100 },
    terminal := { method := .gordon, gordon_growth := 4/100, exit_ebitda_multiple := 0 },
    expansion := oneClinic, maintenance_capex_pct_of_revenue := 0, net_debt := 0 }

/-- A $1,000 single-year-life asset bought in year 1. -/
def laserAsset : EquipmentAsset :=
  { name := "Laser", cost := 1000, purchase_year := 1, life_years := 1,
    salvage_value := 0, annual_maintenance_pct := 0 }

/-- A one-year configuration with no revenue and a $1,000 equipment purchase:
its single free cash flow is −$1,000 and its terminal value is zero, so its
enterprise value increases with the discount rate. -/
def cfgNegFCF : ModelConfig :=
  { forecast_years := 1, corporate_tax_rate := 0,
    procedure_categories := [], provider_types := [],
    equipment_assets := [laserAsset],
    fixed_opex := [], variable_opex := [],
    membership := quietMembership, retail := quietRetail, working_capital := zeroWC,
    wacc := zeroWACC,
    terminal := { method := .exit, gordon_growth := 0, exit_ebitda_multiple := 8 },
    expansion := oneClinic, maintenance_capex_pct_of_revenue := 0, net_debt := 0 }

/-- A one-year exit-multiple configuration with a positive cash flow
($100) and positive terminal value ($800). -/
def cfgPosFlows : ModelConfig :=
  { forecast_years := 1, corporate_tax_rate := 0,
    procedure_categories := [svcCategory], provider_types := [svcProvider],
    equipment_assets := [], fixed_opex := [], variable_opex := [],
    membership := quietMembership, retail := quietRetail, working_capital := zeroWC,
    wacc := zeroWACC,
    terminal := { method := .exit, gordon_growth := 0, exit_ebitda_multiple := 8 },
    expansion := oneClinic, maintenance_capex_pct_of_revenue := 0, net_debt := 0 }

/-- 365-day DSO, no inventory, payables or deferral. -/
def dsoOnlyWC : WorkingCapitalSettings :=
  { dso_days := 365, dio_days := 0, dpo_days := 0, membership_deferral_months := 0 }

/-- A two-year configuration whose category volume halves each year
(`volume_growth = −1/2`) with 365-day DSO: revenue falls from $100 to $50
and the receivables balance falls with it. -/
def cfgDecline : ModelConfig :=
  { forecast_years := 2, corporate_tax_rate := 0,
    procedure_categories := [{ svcCategory with volume_growth := -(1/2) }],
    provider_types := [svcProvider],
    equipment_assets := [], fixed_opex := [], variable_opex := [],
    membership := quietMembership, retail := quietRetail,
    working_capital := dsoOnlyWC,
    wacc := zeroWACC,
    terminal := { method := .exit, gordon_growth := 0, exit_ebitda_multiple := 8 },
    expansion := { clinics_year1 := 1, new_clinics_per_year := [0, 0] },
    maintenance_capex_pct_of_revenue := 0, net_debt := 0 }

/-- Statement data with one year of history, $1,000 of cash and $100 of
debt.  A depreciation line is present (with value 0) and a capital
expenditure line is present (with value 0), so every series the EPV
normalization reads exists and no NaN arises in the source on this
input: `norm_da = 0`, `maint_capex = 0`. -/
def finC5 : FinData :=
  { revenue := some [1000], ebit := some [200], rd := none, sga := none,
    da := some [0], capexSeries := some [0], ppe := none, lti := none,
    cash := some 1000, total_debt := some 100, shares := some 1, price := none }

/-- EPV inputs taking every dollar of cash as excess and a $7 manual
adjustment, WACC overridden at 10%. -/
def inpC5 : EPVInputs :=
  { years := 1, margin_method := .median, normalized_margin := none,
    tax_rate := 0, rf_rate := 0, mrp := 0, beta := 0, cost_of_debt := 0,
    use_capm := true, equity_weight := 1, maintenance_method := .depr_factor,
    maint_factor := 1, capital_intensity_years := 1, excess_cash_pct := 1,
    rd_capitalize := false, rd_years := 1, sga_capitalize := false, sga_years := 1,
    other_adjustments := 7, use_manual_shares := false, manual_shares := none,
    use_manual_price := false, manual_price := none, wacc_override := some (1/10) }

/-- Statement data for the tornado counterexample: $300 normalized EBIT,
$100 of D&A, one share outstanding. -/
def finC6 : FinData :=
  { revenue := some [1000], ebit := some [300], rd := none, sga := none,
    da := some [100], capexSeries := some [-(50 : ℚ)], ppe := none, lti := none,
    cash := none, total_debt := none, shares := some 1, price := none }

/-- EPV inputs for the tornado counterexample: WACC overridden at 10%,
maintenance capex at one times D&A, a $100 manual adjustment. -/
def inpC6 : EPVInputs :=
  { years := 1, margin_method := .median, normalized_margin := none,
    tax_rate := 0, rf_rate := 5/100, mrp := 5/100, beta := 1, cost_of_debt := 0,
    use_capm := true, equity_weight := 1, maintenance_method := .depr_factor,
    maint_factor := 1, capital_intensity_years := 1, excess_cash_pct := 0,
    rd_capitalize := false, rd_years := 1, sga_capitalize := false, sga_years := 1,
    other_adjustments := 100, use_manual_shares := false, manual_shares := none,
    use_manual_price := false, manual_price := none, wacc_override := some (1/10) }

/-- ±20% shocks on the discount rate (`wacc_override`) and on the manual
adjustment. -/
def shocksC6 : List (EParam × ℚ × ℚ) :=
  [(.wacc_override, (-(1/5), 1/5)), (.other_adjustments, (-(1/5), 1/5))]

end Fixtures

/-! ## Theorems settling the specification claims -/

/-- C1: for every configuration, the `meta` dict returned by
`ValuationModel.run_forecast` satisfies
`enterprise_value = pv_flows + pv_terminal`; in the exact-rational
embedding the identity is exact, hence well within any floating
tolerance. -/
theorem spec_c1_enterprise_value_is_pv_sum (cfg : SummitPE.ModelConfig) :
    ((SummitPE.run_forecast cfg).2).enterprise_value =
      ((SummitPE.run_forecast cfg).2).pv_flows +
        ((SummitPE.run_forecast cfg).2).pv_terminal := rfl

/-- C5 (amended): the DCF engine bridges to equity as
`equity_value = enterprise_value − net_debt` with no non-operating-asset
term, while the EPV engine bridges as `equity = value of operations +
excess cash + non-operating assets − debt + other adjustments`. -/
theorem spec_c5_amended_equity_bridge :
    (∀ cfg : SummitPE.ModelConfig,
      ((SummitPE.run_forecast cfg).2).equity_value =
        ((SummitPE.run_forecast cfg).2).enterprise_value - cfg.net_debt) ∧
    (∀ (fin : EPV.FinData) (inputs : EPV.EPVInputs),
      (EPV.compute_epv fin inputs).equity_value =
        (EPV.compute_epv fin inputs).value_operations +
          (EPV.compute_epv fin inputs).cash_adjusted +
          (EPV.compute_epv fin inputs).non_operating_assets -
          (EPV.compute_epv fin inputs).debt +
          (EPV.compute_epv fin inputs).other_adjustments) :=
  ⟨fun _ => rfl, fun _ _ => rfl⟩

/-- C7: the `mc` command seeds the process-global generator whenever a seed
is supplied (`np.random.seed(seed)`), so the sample-outcome sequence is
independent of the ambient generator state: two runs with the same seed,
iteration count, distributions and base assumptions produce
element-for-element equal outcome lists. -/
theorem spec_c7_seeded_monte_carlo_reproducible (g1 g2 : Nat) (s : Nat)
    (iterations : Nat) (base : SummitPE.ModelConfig) :
    SummitPE.monte_carlo g1 (some s) iterations base =
      SummitPE.monte_carlo g2 (some s) iterations base := rfl

/-- C9: `compute_epv` floors the capitalization WACC at `0.03` and
capitalizes `max(0, after-tax earnings power)`, so the stored WACC is at
least `0.03` (in particular positive), the value of operations is exactly
that quotient, and it is never negative. -/
theorem spec_c9_epv_wacc_floor_nonneg (fin : EPV.FinData) (inputs : EPV.EPVInputs) :
    3/100 ≤ (EPV.compute_epv fin inputs).wacc ∧
    0 ≤ (EPV.compute_epv fin inputs).value_operations :=
  ⟨le_max_left _ _,
   div_nonneg (le_max_left _ _)
     (le_trans (by norm_num) (le_max_left (3/100 : ℚ) _))⟩

/-- C10: for every size class and every market snapshot (the no-snapshot
call path resolves the singleton's current snapshot and is therefore the
same function at that snapshot), `getRealTimeWACC` lands in
`[0.08, 0.18]`. -/
theorem spec_c10_realtime_wacc_bounds (size : MarketData.SizeClass)
    (data : MarketData.Snapshot) :
    8/100 ≤ MarketData.getRealTimeWACC size data ∧
      MarketData.getRealTimeWACC size data ≤ 18/100 :=
  ⟨le_max_left _ _, max_le (by norm_num) (min_le_left _ _)⟩

/-- C8 (counterexample): `calculateEnhancedMultiple` applies no range clip:
on a Beverly-Hills deal with 30% margin, 25% growth and three locations in
a growing, low-competition market the multiple is
`8.2 × 1.32 × 1.25 × 1.12 × 1.3 × 1.03 × 1.02 × 1.02 ≈ 21.1`, well above
the claimed `15.0` cap. -/
theorem spec_c8_counterexample :
    15 < MarketData.calculateEnhancedMultiple Fixtures.dealC8 := by
  simp [MarketData.calculateEnhancedMultiple, MarketData.locationMultipliers,
    MarketData.lookupMult, Fixtures.dealC8]
  norm_num

/-- C8 (amended): the real-time path `getRealTimeMarketMultiple` does clip
its final multiple to `[6.0, 15.0]`, and the market-calibrated path clips
to `[6.5, 12.0]`; the enhanced-multiple path applies its location, size,
margin, growth, business-model, maturity and competition factors with no
clip at all (see the counterexample). -/
theorem spec_c8_amended_clip_ranges :
    (∀ (e : ℚ) (d : MarketData.Snapshot),
      6 ≤ MarketData.getRealTimeMarketMultiple e d ∧
        MarketData.getRealTimeMarketMultiple e d ≤ 15) ∧
    (∀ c : MarketData.CalibrationData,
      65/10 ≤ MarketData.getMarketCalibratedMultiple c ∧
        MarketData.getMarketCalibratedMultiple c ≤ 12) :=
  ⟨fun _ _ => ⟨le_max_left _ _, max_le (by norm_num) (min_le_left _ _)⟩,
   fun _ => ⟨le_max_left _ _, max_le (by norm_num) (min_le_left _ _)⟩⟩

/-- C2 (counterexample): on a Gordon configuration whose WACC (2%) is below
its terminal growth (4%), `run_forecast` raises nothing and returns a
valuation whose terminal value is the negative number −5200; moreover
`_validate_config` does not even warn, because its check compares the
growth against `risk_free_rate + equity_risk_premium` (5%), not against
the WACC. -/
theorem spec_c2_counterexample :
    (SummitPE.run_forecast Fixtures.cfgGordonBad).2.terminal_value = -5200 ∧
    SummitPE.waccOf Fixtures.cfgGordonBad ≤
      Fixtures.cfgGordonBad.terminal.gordon_growth ∧
    ¬ SummitPE.gordonWarning Fixtures.cfgGordonBad := by
  refine ⟨?_, ?_, ?_⟩
  · simp [SummitPE.run_forecast, SummitPE.valuationMeta, SummitPE.terminalValueAt,
      SummitPE.forecastRows, SummitPE.forecastGo, SummitPE.yearRow,
      SummitPE.clinics_by_year, SummitPE.clinicsLoop, SummitPE.members_by_year,
      SummitPE.membersLoop, SummitPE.pyInt, SummitPE.dep_by_year, SummitPE.capex_by_year,
      SummitPE.maint_by_year, SummitPE.minutes_total, SummitPE.cat_minutes,
      SummitPE.categoryEcon, SummitPE.lookupD, SummitPE.waccOf, SummitPE.defaultRow,
      Fixtures.cfgGordonBad, Fixtures.svcCategory, Fixtures.svcProvider,
      Fixtures.quietMembership, Fixtures.quietRetail, Fixtures.zeroWC,
      Fixtures.oneClinic, Fixtures.zeroWACC, max_def, min_def]
    norm_num
  · norm_num [SummitPE.waccOf, Fixtures.cfgGordonBad, Fixtures.zeroWACC]
  · intro h
    have h2 := h.2
    norm_num [Fixtures.cfgGordonBad, Fixtures.zeroWACC] at h2

/-- C2 (amended): the source neither validates nor raises on
`discountRate ≤ terminalGrowthRate`: for every Gordon configuration whose
WACC is strictly below the terminal growth rate and whose final-year free
cash flow times `1 + growth` is positive, `run_forecast` returns normally
with a strictly negative terminal value (at exact equality the Python
division would raise `ZeroDivisionError` instead). -/
theorem spec_c2_amended_gordon_negative_terminal (cfg : SummitPE.ModelConfig)
    (hm : cfg.terminal.method = .gordon)
    (hw : SummitPE.waccOf cfg < cfg.terminal.gordon_growth)
    (hpos : 0 < ((SummitPE.forecastRows cfg).getLastD SummitPE.defaultRow).ufcf *
      (1 + cfg.terminal.gordon_growth)) :
    (SummitPE.run_forecast cfg).2.terminal_value < 0 := by
  have h1 : (SummitPE.run_forecast cfg).2.terminal_value =
      ((SummitPE.forecastRows cfg).getLastD SummitPE.defaultRow).ufcf *
        (1 + cfg.terminal.gordon_growth) /
        (SummitPE.waccOf cfg - cfg.terminal.gordon_growth) := by
    simp [SummitPE.run_forecast, SummitPE.valuationMeta, SummitPE.terminalValueAt, hm]
  rw [h1]
  exact div_neg_of_pos_of_neg hpos (by linarith)

/-- Witness for the amended C2 theorem: its hypotheses hold at
`cfgGordonBad` (Gordon method, WACC 2% < growth 4%, final free cash flow
$100 > 0), and the theorem yields the negative terminal value. -/
theorem spec_c2_amended_witness :
    (SummitPE.run_forecast Fixtures.cfgGordonBad).2.terminal_value < 0 :=
  spec_c2_amended_gordon_negative_terminal Fixtures.cfgGordonBad
    rfl
    (by norm_num [SummitPE.waccOf, Fixtures.cfgGordonBad, Fixtures.zeroWACC])
    (by
      simp [SummitPE.forecastRows, SummitPE.forecastGo, SummitPE.yearRow,
        SummitPE.clinics_by_year, SummitPE.clinicsLoop, SummitPE.members_by_year,
        SummitPE.membersLoop, SummitPE.pyInt, SummitPE.dep_by_year,
        SummitPE.capex_by_year, SummitPE.maint_by_year, SummitPE.minutes_total,
        SummitPE.cat_minutes, SummitPE.categoryEcon, SummitPE.lookupD,
        SummitPE.defaultRow, Fixtures.cfgGordonBad, Fixtures.svcCategory,
        Fixtures.svcProvider, Fixtures.quietMembership, Fixtures.quietRetail,
        Fixtures.zeroWC, Fixtures.oneClinic, Fixtures.zeroWACC, max_def, min_def]
      norm_num)

/-- The `sum(cf * df for ...)` of `run_forecast` equals the recursive
present-value function, for any starting exponent. -/
theorem summit_pv_sum_eq_pvRec (w : ℚ) :
    ∀ (cfs : List ℚ) (k : Nat),
      (List.zipWith (fun cf df => cf * df) cfs
        ((List.range cfs.length).map (fun i => 1 / (1 + w) ^ (i + k)))).sum
        = SummitPE.pvRec w k cfs := by
  intro cfs
  induction cfs with
  | nil => intro k; simp [SummitPE.pvRec]
  | cons c cs ih =>
      intro k
      rw [List.length_cons, List.range_succ_eq_map]
      simp only [List.map_cons, List.zipWith_cons_cons, List.sum_cons, List.map_map]
      rw [SummitPE.pvRec]
      have hfun : ((fun i => 1 / (1 + w) ^ (i + k)) ∘ Nat.succ) =
          (fun i => 1 / (1 + w) ^ (i + (k + 1))) := by
        funext i
        have hex : i.succ + k = i + (k + 1) := by omega
        simp only [Function.comp_apply, hex]
      rw [hfun, ih (k + 1)]
      simp [Nat.zero_add]

/-- Raising the discount rate never raises the present value of a
nonnegative cash-flow list. -/
theorem summit_pvRec_anti (w1 w2 : ℚ) (h0 : 0 < 1 + w1) (h12 : w1 < w2) :
    ∀ (cfs : List ℚ) (k : Nat), (∀ c ∈ cfs, 0 ≤ c) →
      SummitPE.pvRec w2 k cfs ≤ SummitPE.pvRec w1 k cfs := by
  intro cfs
  induction cfs with
  | nil => intro k _; simp [SummitPE.pvRec]
  | cons c cs ih =>
      intro k hcf
      rw [SummitPE.pvRec, SummitPE.pvRec]
      have hc : 0 ≤ c := hcf c (List.mem_cons_self _ _)
      have hp1 : (0:ℚ) < (1 + w1) ^ k := pow_pos h0 k
      have hp2 : (1 + w1) ^ k ≤ (1 + w2) ^ k :=
        pow_le_pow_left₀ (le_of_lt h0) (by linarith) k
      have hdf : 1 / (1 + w2) ^ k ≤ 1 / (1 + w1) ^ k :=
        one_div_le_one_div_of_le hp1 hp2
      have h1 := mul_le_mul_of_nonneg_left hdf hc
      have h2 := ih (k + 1) (fun x hx => hcf x (List.mem_cons_of_mem _ hx))
      linarith

/-- C3 (counterexample): on a configuration whose only free cash flow is
−$1,000 (a year-one equipment purchase and no revenue) the enterprise
value strictly increases when the discount rate moves from 5% to 25%
(−$952.38 → −$800), refuting strict monotone decrease for arbitrary
assumptions. -/
theorem spec_c3_counterexample :
    (1/20 : ℚ) < 1/4 ∧
    SummitPE.ev_at Fixtures.cfgNegFCF (1/20) < SummitPE.ev_at Fixtures.cfgNegFCF (1/4) := by
  constructor
  · norm_num
  · simp [SummitPE.ev_at, SummitPE.valuationMeta, SummitPE.terminalValueAt,
      SummitPE.forecastRows, SummitPE.forecastGo, SummitPE.yearRow,
      SummitPE.clinics_by_year, SummitPE.clinicsLoop, SummitPE.members_by_year,
      SummitPE.membersLoop, SummitPE.pyInt, SummitPE.dep_by_year, SummitPE.capex_by_year,
      SummitPE.maint_by_year, SummitPE.minutes_total, SummitPE.cat_minutes,
      SummitPE.categoryEcon, SummitPE.lookupD, SummitPE.defaultRow,
      Fixtures.cfgNegFCF, Fixtures.laserAsset, Fixtures.quietMembership,
      Fixtures.quietRetail, Fixtures.zeroWC, Fixtures.oneClinic, Fixtures.zeroWACC,
      List.range_succ, max_def, min_def]
    norm_num

/-- C3 (amended): increasing the discount rate within the sampled 5%–25%
range strictly decreases enterprise value *provided* every projected free
cash flow is nonnegative and the terminal value is positive (exit method:
positive final EBITDA times multiple; Gordon method: positive final cash
flow times `1 + growth` with growth below the sampled range).  Without the
nonnegativity proviso the claim fails — see the counterexample. -/
theorem spec_c3_amended_monotone_decreasing (cfg : SummitPE.ModelConfig) (r1 r2 : ℚ)
    (hr1 : 1/20 ≤ r1) (h12 : r1 < r2) (hr2 : r2 ≤ 1/4)
    (hcf : ∀ row ∈ SummitPE.forecastRows cfg, 0 ≤ row.ufcf)
    (hterm :
      (cfg.terminal.method = .exit →
        0 < ((SummitPE.forecastRows cfg).getLastD SummitPE.defaultRow).ebitda *
          cfg.terminal.exit_ebitda_multiple) ∧
      (cfg.terminal.method = .gordon →
        0 < ((SummitPE.forecastRows cfg).getLastD SummitPE.defaultRow).ufcf *
          (1 + cfg.terminal.gordon_growth) ∧ cfg.terminal.gordon_growth < r1)) :
    SummitPE.ev_at cfg r2 < SummitPE.ev_at cfg r1 := by
  have h01 : (0:ℚ) < 1 + r1 := by linarith
  have h02 : (0:ℚ) < 1 + r2 := by linarith
  set rows := SummitPE.forecastRows cfg with hrowsdef
  set cfs := rows.map (fun x => x.ufcf) with hcfsdef
  have hev : ∀ r : ℚ, SummitPE.ev_at cfg r =
      (List.zipWith (fun cf df => cf * df) cfs
        ((List.range cfs.length).map (fun i => 1 / (1 + r) ^ (i + 1)))).sum
      + SummitPE.terminalValueAt cfg rows r / (1 + r) ^ cfs.length := fun r => rfl
  have hcfs_nonneg : ∀ c ∈ cfs, 0 ≤ c := by
    intro c hc
    rw [hcfsdef] at hc
    obtain ⟨row, hrow, rfl⟩ := List.mem_map.1 hc
    exact hcf row hrow
  have hne : rows ≠ [] := by
    intro hnil
    cases hmm : cfg.terminal.method with
    | exit =>
        have hT := hterm.1 hmm
        rw [hnil] at hT
        simp [List.getLastD, SummitPE.defaultRow] at hT
    | gordon =>
        have hT := (hterm.2 hmm).1
        rw [hnil] at hT
        simp [List.getLastD, SummitPE.defaultRow] at hT
  have hn0 : cfs.length ≠ 0 := by
    rw [hcfsdef]
    simpa [List.length_eq_zero] using hne
  have hpow1 : (0:ℚ) < (1 + r1) ^ cfs.length := pow_pos h01 _
  have hpow2 : (0:ℚ) < (1 + r2) ^ cfs.length := pow_pos h02 _
  have hpowlt : (1 + r1) ^ cfs.length < (1 + r2) ^ cfs.length :=
    pow_lt_pow_left₀ (by linarith) (le_of_lt h01) hn0
  have hpv : (List.zipWith (fun cf df => cf * df) cfs
        ((List.range cfs.length).map (fun i => 1 / (1 + r2) ^ (i + 1)))).sum ≤
      (List.zipWith (fun cf df => cf * df) cfs
        ((List.range cfs.length).map (fun i => 1 / (1 + r1) ^ (i + 1)))).sum := by
    rw [summit_pv_sum_eq_pvRec r2 cfs 1, summit_pv_sum_eq_pvRec r1 cfs 1]
    exact summit_pvRec_anti r1 r2 h01 h12 cfs 1 hcfs_nonneg
  have htv : SummitPE.terminalValueAt cfg rows r2 / (1 + r2) ^ cfs.length <
      SummitPE.terminalValueAt cfg rows r1 / (1 + r1) ^ cfs.length := by
    cases hmm : cfg.terminal.method with
    | exit =>
        have hT := hterm.1 hmm
        have e1 : SummitPE.terminalValueAt cfg rows r1 =
            (rows.getLastD SummitPE.defaultRow).ebitda * cfg.terminal.exit_ebitda_multiple := by
          simp [SummitPE.terminalValueAt, hmm]
        have e2 : SummitPE.terminalValueAt cfg rows r2 =
            (rows.getLastD SummitPE.defaultRow).ebitda * cfg.terminal.exit_ebitda_multiple := by
          simp [SummitPE.terminalValueAt, hmm]
        rw [e1, e2]
        exact div_lt_div_of_pos_left hT hpow1 hpowlt
    | gordon =>
        obtain ⟨hK, hg⟩ := hterm.2 hmm
        have e1 : SummitPE.terminalValueAt cfg rows r1 =
            (rows.getLastD SummitPE.defaultRow).ufcf * (1 + cfg.terminal.gordon_growth) /
              (r1 - cfg.terminal.gordon_growth) := by
          simp [SummitPE.terminalValueAt, hmm]
        have e2 : SummitPE.terminalValueAt cfg rows r2 =
            (rows.getLastD SummitPE.defaultRow).ufcf * (1 + cfg.terminal.gordon_growth) /
              (r2 - cfg.terminal.gordon_growth) := by
          simp [SummitPE.terminalValueAt, hmm]
        rw [e1, e2]
        have hd1 : (0:ℚ) < r1 - cfg.terminal.gordon_growth := by linarith
        have hd2 : (0:ℚ) < r2 - cfg.terminal.gordon_growth := by linarith
        have hnum : (rows.getLastD SummitPE.defaultRow).ufcf * (1 + cfg.terminal.gordon_growth) /
              (r2 - cfg.terminal.gordon_growth) <
            (rows.getLastD SummitPE.defaultRow).ufcf * (1 + cfg.terminal.gordon_growth) /
              (r1 - cfg.terminal.gordon_growth) :=
          div_lt_div_of_pos_left hK hd1 (by linarith)
        have step1 := (div_lt_div_iff_of_pos_right hpow2).mpr hnum
        have step2 : (rows.getLastD SummitPE.defaultRow).ufcf * (1 + cfg.terminal.gordon_growth) /
              (r1 - cfg.terminal.gordon_growth) / (1 + r2) ^ cfs.length ≤
            (rows.getLastD SummitPE.defaultRow).ufcf * (1 + cfg.terminal.gordon_growth) /
              (r1 - cfg.terminal.gordon_growth) / (1 + r1) ^ cfs.length :=
          div_le_div_of_nonneg_left (le_of_lt (div_pos hK hd1)) hpow1 (le_of_lt hpowlt)
        linarith
  rw [hev r1, hev r2]
  exact add_lt_add_of_le_of_lt hpv htv

/-- Witness for the amended C3 theorem: at `cfgPosFlows` (one $100 cash
flow, exit terminal value $800) the hypotheses hold at the sampled rates
5% and 25%, and the enterprise value strictly decreases. -/
theorem spec_c3_amended_witness :
    SummitPE.ev_at Fixtures.cfgPosFlows (1/4) < SummitPE.ev_at Fixtures.cfgPosFlows (1/20) :=
  spec_c3_amended_monotone_decreasing Fixtures.cfgPosFlows (1/20) (1/4)
    (le_refl _) (by norm_num) (le_refl _)
    (by
      intro row hrow
      simp [SummitPE.forecastRows, SummitPE.forecastGo, SummitPE.yearRow,
        SummitPE.clinics_by_year, SummitPE.clinicsLoop, SummitPE.members_by_year,
        SummitPE.membersLoop, SummitPE.pyInt, SummitPE.dep_by_year,
        SummitPE.capex_by_year, SummitPE.maint_by_year, SummitPE.minutes_total,
        SummitPE.cat_minutes, SummitPE.categoryEcon, SummitPE.lookupD,
        Fixtures.cfgPosFlows, Fixtures.svcCategory, Fixtures.svcProvider,
        Fixtures.quietMembership, Fixtures.quietRetail, Fixtures.zeroWC,
        Fixtures.oneClinic, Fixtures.zeroWACC, max_def, min_def] at hrow
      subst hrow
      norm_num)
    ⟨fun _ => by
      simp [SummitPE.forecastRows, SummitPE.forecastGo, SummitPE.yearRow,
        SummitPE.clinics_by_year, SummitPE.clinicsLoop, SummitPE.members_by_year,
        SummitPE.membersLoop, SummitPE.pyInt, SummitPE.dep_by_year,
        SummitPE.capex_by_year, SummitPE.maint_by_year, SummitPE.minutes_total,
        SummitPE.cat_minutes, SummitPE.categoryEcon, SummitPE.lookupD,
        SummitPE.defaultRow, List.getLastD,
        Fixtures.cfgPosFlows, Fixtures.svcCategory, Fixtures.svcProvider,
        Fixtures.quietMembership, Fixtures.quietRetail, Fixtures.zeroWC,
        Fixtures.oneClinic, Fixtures.zeroWACC, max_def, min_def]
      norm_num,
     fun h => by simp [Fixtures.cfgPosFlows] at h⟩

/-- The forecast loop produces one row per remaining year. -/
theorem summit_forecastGo_length (cfg : SummitPE.ModelConfig) :
    ∀ (m idx : Nat) (last : SummitPE.Lasts),
      (SummitPE.forecastGo cfg m idx last).length = m := by
  intro m
  induction m with
  | zero => intro idx last; simp [SummitPE.forecastGo]
  | succ m ih => intro idx last; simp [SummitPE.forecastGo, ih]

/-- A forecast row's working-capital delta is the change of each balance
against the carried balances (immediate from the loop body). -/
theorem summit_yearRow_delta (cfg : SummitPE.ModelConfig) (idx : Nat)
    (last : SummitPE.Lasts) :
    (SummitPE.yearRow cfg idx last).delta_nwc =
      ((SummitPE.yearRow cfg idx last).ar - last.ar) +
      ((SummitPE.yearRow cfg idx last).inv - last.inv) -
      ((SummitPE.yearRow cfg idx last).ap - last.ap) +
      ((SummitPE.yearRow cfg idx last).deferred_rev - last.defrev) := rfl

/-- In any suffix of the forecast loop, each row's `delta_nwc` is the
change of `AR + inventory − AP + deferred revenue` against the previous
row (or against the carried balances for the first row of the suffix). -/
theorem summit_forecastGo_delta (cfg : SummitPE.ModelConfig) :
    ∀ (m idx : Nat) (last : SummitPE.Lasts) (j : Nat), j < m →
      ((SummitPE.forecastGo cfg m idx last).getD j SummitPE.defaultRow).delta_nwc =
        (((SummitPE.forecastGo cfg m idx last).getD j SummitPE.defaultRow).ar -
          (if j = 0 then last.ar
           else ((SummitPE.forecastGo cfg m idx last).getD (j-1) SummitPE.defaultRow).ar)) +
        (((SummitPE.forecastGo cfg m idx last).getD j SummitPE.defaultRow).inv -
          (if j = 0 then last.inv
           else ((SummitPE.forecastGo cfg m idx last).getD (j-1) SummitPE.defaultRow).inv)) -
        (((SummitPE.forecastGo cfg m idx last).getD j SummitPE.defaultRow).ap -
          (if j = 0 then last.ap
           else ((SummitPE.forecastGo cfg m idx last).getD (j-1) SummitPE.defaultRow).ap)) +
        (((SummitPE.forecastGo cfg m idx last).getD j SummitPE.defaultRow).deferred_rev -
          (if j = 0 then last.defrev
           else ((SummitPE.forecastGo cfg m idx last).getD (j-1) SummitPE.defaultRow).deferred_rev)) := by
  intro m
  induction m with
  | zero => intro idx last j hj; exact absurd hj (Nat.not_lt_zero j)
  | succ m ih =>
      intro idx last j hj
      rw [SummitPE.forecastGo]
      cases j with
      | zero =>
          simp only [List.getD_cons_zero, if_pos rfl]
          exact summit_yearRow_delta cfg idx last
      | succ jj =>
          have hj2 : jj < m := Nat.lt_of_succ_lt_succ hj
          simp only [List.getD_cons_succ, Nat.succ_ne_zero, if_false, Nat.succ_sub_one]
          cases jj with
          | zero =>
              have h0 := ih (idx + 1)
                ⟨(SummitPE.yearRow cfg idx last).ar, (SummitPE.yearRow cfg idx last).inv,
                 (SummitPE.yearRow cfg idx last).ap, (SummitPE.yearRow cfg idx last).deferred_rev⟩
                0 hj2
              simpa using h0
          | succ kk =>
              have h0 := ih (idx + 1)
                ⟨(SummitPE.yearRow cfg idx last).ar, (SummitPE.yearRow cfg idx last).inv,
                 (SummitPE.yearRow cfg idx last).ap, (SummitPE.yearRow cfg idx last).deferred_rev⟩
                (kk + 1) hj2
              simpa using h0

/-- C4 (counterexample): in the declining-volume configuration the
second-year revenue ($50) is below the first-year revenue ($100), yet the
second-year working-capital delta is −$50 — negative, not the zero the
claimed `max(0, Δrevenue)` rule would give. -/
theorem spec_c4_counterexample :
    ((SummitPE.forecastRows Fixtures.cfgDecline).getD 1 SummitPE.defaultRow).total_revenue <
      ((SummitPE.forecastRows Fixtures.cfgDecline).getD 0 SummitPE.defaultRow).total_revenue ∧
    ((SummitPE.forecastRows Fixtures.cfgDecline).getD 1 SummitPE.defaultRow).delta_nwc = -50 ∧
    ((SummitPE.forecastRows Fixtures.cfgDecline).getD 1 SummitPE.defaultRow).delta_nwc < 0 := by
  refine ⟨?_, ?_, ?_⟩ <;>
  · simp [SummitPE.forecastRows, SummitPE.forecastGo, SummitPE.yearRow,
      SummitPE.clinics_by_year, SummitPE.clinicsLoop, SummitPE.members_by_year,
      SummitPE.membersLoop, SummitPE.pyInt, SummitPE.dep_by_year, SummitPE.capex_by_year,
      SummitPE.maint_by_year, SummitPE.minutes_total, SummitPE.cat_minutes,
      SummitPE.categoryEcon, SummitPE.lookupD, SummitPE.defaultRow,
      Fixtures.cfgDecline, Fixtures.svcCategory, Fixtures.svcProvider,
      Fixtures.quietMembership, Fixtures.quietRetail, Fixtures.dsoOnlyWC,
      Fixtures.zeroWACC, max_def, min_def]
    norm_num

/-- C4 (amended): the working-capital delta of forecast year `j` is not
`pct × max(0, Δrevenue)` but the change in balance-sheet working capital:
`(AR_j − AR_{j−1}) + (Inv_j − Inv_{j−1}) − (AP_j − AP_{j−1}) +
(DefRev_j − DefRev_{j−1})`, with all four balances starting at zero before
year one; in particular it is negative whenever those balances shrink
(see the counterexample). -/
theorem spec_c4_amended_delta_nwc_formula (cfg : SummitPE.ModelConfig) (j : Nat)
    (hj : j < (SummitPE.forecastRows cfg).length) :
    ((SummitPE.forecastRows cfg).getD j SummitPE.defaultRow).delta_nwc =
      (((SummitPE.forecastRows cfg).getD j SummitPE.defaultRow).ar -
        (if j = 0 then 0
         else ((SummitPE.forecastRows cfg).getD (j-1) SummitPE.defaultRow).ar)) +
      (((SummitPE.forecastRows cfg).getD j SummitPE.defaultRow).inv -
        (if j = 0 then 0
         else ((SummitPE.forecastRows cfg).getD (j-1) SummitPE.defaultRow).inv)) -
      (((SummitPE.forecastRows cfg).getD j SummitPE.defaultRow).ap -
        (if j = 0 then 0
         else ((SummitPE.forecastRows cfg).getD (j-1) SummitPE.defaultRow).ap)) +
      (((SummitPE.forecastRows cfg).getD j SummitPE.defaultRow).deferred_rev -
        (if j = 0 then 0
         else ((SummitPE.forecastRows cfg).getD (j-1) SummitPE.defaultRow).deferred_rev)) := by
  have hm : j < cfg.forecast_years := by
    have := summit_forecastGo_length cfg cfg.forecast_years 0 ⟨0, 0, 0, 0⟩
    rw [SummitPE.forecastRows] at hj
    omega
  exact summit_forecastGo_delta cfg cfg.forecast_years 0 ⟨0, 0, 0, 0⟩ j hm

/-- Witness for the amended C4 theorem: at `cfgDecline`, year 2 (index 1)
is within the horizon and the balance-change formula holds there. -/
theorem spec_c4_amended_witness :
    ((SummitPE.forecastRows Fixtures.cfgDecline).getD 1 SummitPE.defaultRow).delta_nwc =
      (((SummitPE.forecastRows Fixtures.cfgDecline).getD 1 SummitPE.defaultRow).ar -
        (if (1:Nat) = 0 then 0
         else ((SummitPE.forecastRows Fixtures.cfgDecline).getD 0 SummitPE.defaultRow).ar)) +
      (((SummitPE.forecastRows Fixtures.cfgDecline).getD 1 SummitPE.defaultRow).inv -
        (if (1:Nat) = 0 then 0
         else ((SummitPE.forecastRows Fixtures.cfgDecline).getD 0 SummitPE.defaultRow).inv)) -
      (((SummitPE.forecastRows Fixtures.cfgDecline).getD 1 SummitPE.defaultRow).ap -
        (if (1:Nat) = 0 then 0
         else ((SummitPE.forecastRows Fixtures.cfgDecline).getD 0 SummitPE.defaultRow).ap)) +
      (((SummitPE.forecastRows Fixtures.cfgDecline).getD 1 SummitPE.defaultRow).deferred_rev -
        (if (1:Nat) = 0 then 0
         else ((SummitPE.forecastRows Fixtures.cfgDecline).getD 0 SummitPE.defaultRow).deferred_rev)) :=
  spec_c4_amended_delta_nwc_formula Fixtures.cfgDecline 1
    (by
      have := summit_forecastGo_length Fixtures.cfgDecline
        Fixtures.cfgDecline.forecast_years 0 ⟨0, 0, 0, 0⟩
      rw [SummitPE.forecastRows, this]
      norm_num [Fixtures.cfgDecline])

/-- C5 (counterexample): on `finC5`/`inpC5` the EPV engine returns
`equity_value = 2907` ($2,000 of operations + $1,000 excess cash − $100
debt + $7 adjustments), while the claimed
`enterpriseValue − netDebt + nonOperatingAssets` bridge gives
`2000 − 100 + 0 = 1900`: the excess-cash and manual-adjustment terms are
missing from the claimed formula. -/
theorem spec_c5_counterexample :
    (EPV.compute_epv Fixtures.finC5 Fixtures.inpC5).equity_value = 2907 ∧
    (EPV.compute_epv Fixtures.finC5 Fixtures.inpC5).value_operations -
      (EPV.compute_epv Fixtures.finC5 Fixtures.inpC5).debt +
      (EPV.compute_epv Fixtures.finC5 Fixtures.inpC5).non_operating_assets = 1900 ∧
    (EPV.compute_epv Fixtures.finC5 Fixtures.inpC5).equity_value ≠
      (EPV.compute_epv Fixtures.finC5 Fixtures.inpC5).value_operations -
        (EPV.compute_epv Fixtures.finC5 Fixtures.inpC5).debt +
        (EPV.compute_epv Fixtures.finC5 Fixtures.inpC5).non_operating_assets := by
  refine ⟨?_, ?_, ?_⟩ <;>
  · simp [EPV.compute_epv, EPV.normalized_values, EPV.normalized_values.marginHist,
      EPV.estimate_maintenance_capex, EPV.compute_wacc, EPV.compute_wacc.waccBody,
      EPV.capitalize_series, EPV.tailN, EPV.median, EPV.sortAsc, EPV.insertAsc,
      EPV.mean, EPV.diffs, EPV.alignTail, EPV.safe_avg,
      Fixtures.finC5, Fixtures.inpC5, max_def, min_def]
    norm_num

/-- Membership in the descending insertion. -/
theorem epv_insertDescHigh_mem (r a : EPV.TornadoRecord) :
    ∀ l, a ∈ EPV.insertDescHigh r l ↔ a = r ∨ a ∈ l := by
  intro l
  induction l with
  | nil => simp [EPV.insertDescHigh]
  | cons x xs ih =>
      rw [EPV.insertDescHigh]
      by_cases h : x.high ≤ r.high
      · simp [h]
      · simp only [if_neg h, List.mem_cons, ih]
        tauto

/-- Inserting into a list sorted descending on `high` keeps it sorted. -/
theorem epv_insertDescHigh_pairwise (r : EPV.TornadoRecord) :
    ∀ l : List EPV.TornadoRecord, l.Pairwise (fun a b => b.high ≤ a.high) →
      (EPV.insertDescHigh r l).Pairwise (fun a b => b.high ≤ a.high) := by
  intro l
  induction l with
  | nil => intro _; simp [EPV.insertDescHigh]
  | cons x xs ih =>
      intro hl
      rw [List.pairwise_cons] at hl
      rw [EPV.insertDescHigh]
      by_cases h : x.high ≤ r.high
      · rw [if_pos h, List.pairwise_cons]
        constructor
        · intro b hb
          rcases List.mem_cons.1 hb with hb | hb
          · exact hb ▸ h
          · exact le_trans (hl.1 b hb) h
        · rw [List.pairwise_cons]
          exact hl
      · rw [if_neg h, List.pairwise_cons]
        constructor
        · intro b hb
          rcases (epv_insertDescHigh_mem r b xs).1 hb with hb | hb
          · rw [hb]; linarith [lt_of_not_le h]
          · exact hl.1 b hb
        · exact ih hl.2

/-- `sortDescHigh` output length. -/
theorem epv_sortDescHigh_length :
    ∀ l : List EPV.TornadoRecord, (EPV.sortDescHigh l).length = l.length := by
  intro l
  induction l with
  | nil => simp [EPV.sortDescHigh]
  | cons x xs ih =>
      rw [EPV.sortDescHigh]
      have : ∀ (r : EPV.TornadoRecord) (m : List EPV.TornadoRecord),
          (EPV.insertDescHigh r m).length = m.length + 1 := by
        intro r m
        induction m with
        | nil => simp [EPV.insertDescHigh]
        | cons y ys ihy =>
            rw [EPV.insertDescHigh]
            by_cases h : y.high ≤ r.high
            · simp [h]
            · simp [h, ihy]
      rw [this, ih, List.length_cons]

/-- `sortDescHigh` output is sorted descending on the signed `high`. -/
theorem epv_sortDescHigh_pairwise :
    ∀ l : List EPV.TornadoRecord,
      (EPV.sortDescHigh l).Pairwise (fun a b => b.high ≤ a.high) := by
  intro l
  induction l with
  | nil => simp [EPV.sortDescHigh]
  | cons x xs ih => rw [EPV.sortDescHigh]; exact epv_insertDescHigh_pairwise x _ ih

/-- C6 (amended): `tornado_data` returns one record per shocked driver,
ordered descending by the *signed* high-side delta (pandas
`sort_values(by=["high"], ascending=False)`), not by its absolute value;
a driver with a large negative high-side delta therefore sorts last (see
the counterexample, where that driver is the discount rate). -/
theorem spec_c6_amended_sorted_by_signed_high (base : EPV.EPVInputs)
    (fin : EPV.FinData) (shocks : List (EPV.EParam × ℚ × ℚ)) :
    (EPV.tornado_data base fin shocks).length = shocks.length ∧
    (EPV.tornado_data base fin shocks).Pairwise (fun a b => b.high ≤ a.high) := by
  constructor
  · rw [EPV.tornado_data, epv_sortDescHigh_length, List.length_map]
  · rw [EPV.tornado_data]
    exact epv_sortDescHigh_pairwise _

/-- C6 (counterexample): shocking the discount rate (`wacc_override`,
high-side delta −$500, the largest in magnitude) and the manual
adjustment (high-side delta +$20), `tornado_data` returns the manual
adjustment *first* and the discount rate last: the sort uses the signed
high delta, so the claimed largest-|high|-first ordering fails. -/
theorem spec_c6_counterexample :
    EPV.tornado_data Fixtures.inpC6 Fixtures.finC6 Fixtures.shocksC6 =
      [⟨.other_adjustments, -20, 20, 3100⟩, ⟨.wacc_override, 750, -500, 3100⟩] ∧
    (20:ℚ) < |(-500:ℚ)| := by
  constructor
  · simp [EPV.tornado_data, EPV.sortDescHigh, EPV.insertDescHigh,
      EPV.getParam, EPV.setParam, EPV.compute_epv, EPV.normalized_values,
      EPV.normalized_values.marginHist, EPV.estimate_maintenance_capex,
      EPV.compute_wacc, EPV.compute_wacc.waccBody, EPV.capitalize_series,
      EPV.tailN, EPV.median, EPV.sortAsc, EPV.insertAsc, EPV.mean, EPV.diffs,
      EPV.alignTail, EPV.safe_avg,
      Fixtures.finC6, Fixtures.inpC6, Fixtures.shocksC6, max_def, min_def]
    norm_num
  · norm_num
